import Mathlib

/-!
Verification development for the Marketer_AI repository.

The repository defines two classes, `ContentCrew`
(src/packages/agent-core/src/crews/content_crew.py) and `VideoCrew`
(src/packages/agent-core/src/crews/video_crew.py).  Each builds a list of
`Task` objects (instruction text, expected-output text, an agent index, and a
`context` list naming the earlier tasks whose outputs the task depends on) and
hands them to the external crewai framework via `Crew(..., tasks=...,
process=Process.sequential).kickoff()`.  The dictionaries returned by the two
pipeline methods, the platform-spec table with its default fallback, and the
construction of every task description are embedded here directly from the
source.  The sequential execution performed by crewai's `kickoff` is not part
of the repository; it is modelled from the spec (sections 4.1 and 5).
-/

/-- A Python string-to-string dictionary (e.g. the campaign brief), modelled as
an association list; keys are unique in every dictionary the source builds. -/
abbrev StrDict := List (String × String)

/-- Association-list lookup, modelling Python `d[k]` / `d.get(k)` (returns
`none` when the key is absent). -/
def alistGet {α : Type} (d : List (String × α)) (k : String) : Option α :=
  match d with
  | [] => none
  | (k2, v) :: rest => if k2 = k then some v else alistGet rest k

/-- Python `d.get(k, default)`. -/
def alistGetD {α : Type} (d : List (String × α)) (k : String) (dflt : α) : α :=
  (alistGet d k).getD dflt

/-- A platform spec entry: one value of the `PLATFORM_SPECS` table of
video_crew.py (width, height, fps, and the optional `max_duration`, which is
`None` for "youtube"). -/
structure Spec where
  width : Nat
  height : Nat
  fps : Nat
  max_duration : Option Nat
  deriving DecidableEq, Repr

/-- Python `repr` of an optional int (`None` when absent), as it would be
printed inside an f-string. -/
def pyReprOptNat : Option Nat → String
  | some n => toString n
  | none => "None"

/-- Python `repr` of a spec-table entry, as interpolated by the f-string
`f"SPECS: {specs}"` of `run_full_video_pipeline` (video_crew.py line 304). -/
def Spec.pyRepr (s : Spec) : String :=
  "\x7b\x27width\x27: " ++ toString s.width ++ ", \x27height\x27: " ++
    toString s.height ++ ", \x27fps\x27: " ++ toString s.fps ++
    ", \x27max_duration\x27: " ++ pyReprOptNat s.max_duration ++ "\x7d"

/-- One pipeline step: the fields of a crewai `Task` as constructed by the
source (description, expected_output, agent, context).  The source's `Task`
objects carry no name; the `id` field is the key under which this embedding
records the step's output, chosen to match the key under which the source's
result dictionary exposes that output. -/
structure Step where
  id : String
  description : String
  expected_output : String
  agent : Nat
  context : List String
  deriving DecidableEq, Repr

/-- The Run Context: outputs recorded so far, keyed by step id. -/
abbrev RunContext := List (String × String)

/-- A value stored in one of the result dictionaries returned by the two
pipeline methods: `None`, a string (a task output or the platform name), the
echoed campaign-brief dictionary, or the echoed spec-table entry. -/
inductive PyVal where
  | pyNone
  | pyStr (s : String)
  | pyStrDict (d : StrDict)
  | pySpecDict (sp : Spec)
  deriving DecidableEq, Repr

/-- Modelled from the spec: the sequential task execution performed by the
external crewai framework inside `Crew(..., process=Process.sequential)
.kickoff()` is not part of this repository.  Following spec sections 4.1 and
5, steps run strictly one after the other in list order; each step's executor
call receives the Run Context accumulated so far, and its output is recorded
under the step's id before the next step starts; an executor error aborts the
remaining steps and propagates.  The first component is the trace of executor
invocations (the step and the Run Context it was invoked with), kept so that
execution-order properties can be stated; the second is the run's outcome. -/
def runStepsT {ε : Type} (exec : Step → RunContext → Except ε String) :
    List Step → RunContext → List (Step × RunContext) × Except ε RunContext
  | [], ctx => ([], Except.ok ctx)
  | s :: rest, ctx =>
    match exec s ctx with
    | Except.error e => ([(s, ctx)], Except.error e)
    | Except.ok out =>
      let r := runStepsT exec rest (ctx ++ [(s.id, out)])
      ((s, ctx) :: r.1, r.2)

/-- The outcome of a sequential run (the trace forgotten). -/
def runSteps {ε : Type} (exec : Step → RunContext → Except ε String)
    (steps : List Step) (ctx : RunContext) : Except ε RunContext :=
  (runStepsT exec steps ctx).2

/-- The trace of executor invocations of a run started on an empty context. -/
def runTrace {ε : Type} (exec : Step → RunContext → Except ε String)
    (steps : List Step) : List (Step × RunContext) :=
  (runStepsT exec steps []).1

/-- Output of the last completed step (crewai's `kickoff` return value is the
last task's output; `""` only for the empty run, which the source never
builds). -/
def lastOutput : RunContext → String
  | [] => ""
  | [(_, v)] => v
  | _ :: rest => lastOutput rest

/-- Modelled from the spec: `crew.kickoff()` runs all tasks sequentially from
a fresh Run Context and returns the final (= last) task output; the completed
Run Context is returned alongside because the source then reads the individual
task outputs (`task.output`). -/
def crewKickoff {ε : Type} (exec : Step → RunContext → Except ε String)
    (steps : List Step) : Except ε (RunContext × String) :=
  match runSteps exec steps [] with
  | Except.error e => Except.error e
  | Except.ok ctx => Except.ok (ctx, lastOutput ctx)

/-- The value of `task.output if hasattr(task, 'output') else None` after a
run: the output recorded for the task, or `None` when none was recorded. -/
def taskOutputVal (ctx : RunContext) (id : String) : PyVal :=
  match alistGet ctx id with
  | some s => PyVal.pyStr s
  | none => PyVal.pyNone

/-- An optional string as a Python value (`None` when absent). -/
def optStrVal : Option String → PyVal
  | some s => PyVal.pyStr s
  | none => PyVal.pyNone

/-- Dependency discipline of a step list: read in order, every declared
context id of a step is already among the recorded ids (the initial recorded
ids plus the ids of all earlier steps). -/
def depsOk (recorded : List String) : List Step → Prop
  | [] => True
  | s :: rest => (∀ d ∈ s.context, d ∈ recorded) ∧ depsOk (recorded ++ [s.id]) rest

namespace ContentCrew

/-- Description of Task 1 of `run_full_content_pipeline` (content_crew.py
lines 239-250), an f-string over `self.brief.get(...)` with the source's
defaults. -/
def hookTaskDescription (brief : StrDict) : String :=
  "Create 5 hook variations for:\n\n            PRODUCT: " ++
    alistGetD brief "product" "Unknown product" ++
    "\n            AUDIENCE: " ++ alistGetD brief "audience" "General audience" ++
    "\n            PLATFORM: " ++ alistGetD brief "platform" "TikTok" ++
    "\n            EMOTION: " ++ alistGetD brief "emotional_trigger" "Curiosity" ++
    "\n\n            Apply pattern interrupts and curiosity gaps."

/-- Description of Task 2 of `run_full_content_pipeline` (content_crew.py
lines 253-266), a plain string literal. -/
def copyTaskDescription : String :=
  "Take the best performing hook from the previous analysis\n            and develop complete ad copy.\n\n            Apply these mental models:\n            - Loss Aversion\n            - Social Proof\n            - Scarcity\n\n            Include primary text, headline, description, and CTA."

/-- Description of Task 3 of `run_full_content_pipeline` (content_crew.py
lines 269-280). -/
def optimizeTaskDescription (brief : StrDict) : String :=
  "Optimize the ad copy for " ++ alistGetD brief "platform" "TikTok" ++
    ".\n\n            Ensure:\n            - Platform-native tone\n            - Correct character limits\n            - Algorithm optimization\n            - Engagement signals"

/-- Task 1 (`hook_task`): no context, agent 0 (Hook Specialist); its output is
exposed as the result key "hooks". -/
def hook_task (brief : StrDict) : Step :=
  { id := "hooks"
    description := hookTaskDescription brief
    expected_output := "5 hooks with psychological analysis"
    agent := 0
    context := [] }

/-- Task 2 (`copy_task`): `context=[hook_task]`, agent 1 (Psychology
Copywriter); its output is exposed as the result key "copy". -/
def copy_task : Step :=
  { id := "copy"
    description := copyTaskDescription
    expected_output := "Complete ad copy with mental model application"
    agent := 1
    context := ["hooks"] }

/-- Task 3 (`optimize_task`): `context=[copy_task]`, agent 2 (Platform
Expert); its output is exposed as the result key "optimized". -/
def optimize_task (brief : StrDict) : Step :=
  { id := "optimized"
    description := optimizeTaskDescription brief
    expected_output := "Final platform-optimized content package"
    agent := 2
    context := ["copy"] }

/-- The task list `[hook_task, copy_task, optimize_task]` passed to the crew
(content_crew.py line 284). -/
def contentSteps (brief : StrDict) : List Step :=
  [hook_task brief, copy_task, optimize_task brief]

/-- `ContentCrew.run_full_content_pipeline` (content_crew.py lines 235-297):
builds the three tasks, runs them sequentially via `crew.kickoff()`, and
returns the dictionary literal of lines 291-297 with keys "hooks", "copy",
"optimized", "platform", "brief".  An executor error propagates (no
dictionary is returned). -/
def run_full_content_pipeline {ε : Type}
    (exec : Step → RunContext → Except ε String) (brief : StrDict) :
    Except ε (List (String × PyVal)) :=
  match crewKickoff exec (contentSteps brief) with
  | Except.error e => Except.error e
  | Except.ok (ctx, result) =>
    Except.ok
      [("hooks", taskOutputVal ctx "hooks"),
       ("copy", taskOutputVal ctx "copy"),
       ("optimized", PyVal.pyStr result),
       ("platform", optStrVal (alistGet brief "platform")),
       ("brief", PyVal.pyStrDict brief)]

/-- The `mental_models` defaulting of `generate_ad_copy` (content_crew.py
lines 162-166): `if mental_models is None: mental_models = ["Loss Aversion",
"Social Proof"]`. -/
def generate_ad_copy_mental_models (mental_models : Option (List String)) :
    List String :=
  match mental_models with
  | none => ["Loss Aversion", "Social Proof"]
  | some l => l

/-- The task description built by `generate_ad_copy` (content_crew.py lines
168-187): an f-string whose MENTAL MODELS line interpolates
`', '.join(mental_models)` after the defaulting above. -/
def generate_ad_copy_description (hook product platform : String)
    (mental_models : Option (List String)) : String :=
  "Develop complete ad copy for:\n\n            HOOK: " ++ hook ++
    "\n            PRODUCT: " ++ product ++
    "\n            PLATFORM: " ++ platform ++
    "\n            MENTAL MODELS TO APPLY: " ++
    String.intercalate ", " (generate_ad_copy_mental_models mental_models) ++
    "\n\n            CREATE:\n            1. Primary text (125-250 characters for FB/IG)\n            2. Headline (benefit-driven, under 40 chars)\n            3. Description (supporting value prop)\n            4. CTA (action-oriented, creates urgency)\n\n            REQUIREMENTS:\n            - Apply each specified mental model deliberately\n            - Explain how each model is being used\n            - Match platform tone and style\n            - Focus on transformation, not features\n            "

end ContentCrew

namespace VideoCrew

/-- The class-level `PLATFORM_SPECS` table (video_crew.py lines 25-31). -/
def PLATFORM_SPECS : List (String × Spec) :=
  [("tiktok", { width := 1080, height := 1920, fps := 30, max_duration := some 180 }),
   ("instagram_reels", { width := 1080, height := 1920, fps := 30, max_duration := some 90 }),
   ("youtube_shorts", { width := 1080, height := 1920, fps := 30, max_duration := some 60 }),
   ("youtube", { width := 1920, height := 1080, fps := 30, max_duration := none }),
   ("instagram_feed", { width := 1080, height := 1080, fps := 30, max_duration := some 60 })]

/-- The "tiktok" entry of the table, spelled out; `PLATFORM_SPECS["tiktok"]`
returns it (proved below as `PLATFORM_SPECS_tiktok`). -/
def platformSpecsTiktok : Spec :=
  { width := 1080, height := 1920, fps := 30, max_duration := some 180 }

/-- The lookup `self.PLATFORM_SPECS.get(platform, self.PLATFORM_SPECS["tiktok"])`
used at video_crew.py lines 166, 207 and 296: an unknown platform falls back
to the "tiktok" entry. -/
def platformSpecsGet (platform : String) : Spec :=
  (alistGet PLATFORM_SPECS platform).getD platformSpecsTiktok

/-- Spec resolution of `generate_video_structure` (video_crew.py line 166). -/
def generate_video_structure_specs (platform : String) : Spec :=
  platformSpecsGet platform

/-- Spec resolution of `generate_remotion_code` (video_crew.py line 207). -/
def generate_remotion_code_specs (platform : String) : Spec :=
  platformSpecsGet platform

/-- Description of Task 1 of `run_full_video_pipeline` (video_crew.py lines
299-309); the f-string interpolates the script, the platform, and the Python
repr of the resolved spec dictionary. -/
def structureTaskDescription (script platform : String) : String :=
  "Design video structure for:\n\n            SCRIPT: " ++ script ++
    "\n            PLATFORM: " ++ platform ++
    "\n            SPECS: " ++ (platformSpecsGet platform).pyRepr ++
    "\n\n            Create scene breakdown with frame-accurate timing."

/-- Description of Task 2 of `run_full_video_pipeline` (video_crew.py lines
312-324), a plain string literal. -/
def codeTaskDescription : String :=
  "Generate Remotion composition code based on the structure.\n\n            Use the video structure to create:\n            - Main composition component\n            - Scene components\n            - Animation utilities\n\n            Follow all Remotion best practices."

/-- Description of Task 3 of `run_full_video_pipeline` (video_crew.py lines
327-339), a plain string literal. -/
def captionTaskDescription : String :=
  "Add TikTok-style captions to the video.\n\n            Create caption component that:\n            - Highlights words as they\x27re spoken\n            - Uses spring animations\n            - Is mobile-readable\n\n            Integrate with the main composition."

/-- Task 1 (`structure_task`): no context, agent 0 (Video Director); its
output is exposed as the result key "structure". -/
def structure_task (script platform : String) : Step :=
  { id := "structure"
    description := structureTaskDescription script platform
    expected_output := "Complete video structure with timing"
    agent := 0
    context := [] }

/-- Task 2 (`code_task`): `context=[structure_task]`, agent 1 (Remotion
Coder); its output is exposed as the result key "remotion_code". -/
def code_task : Step :=
  { id := "remotion_code"
    description := codeTaskDescription
    expected_output := "Complete Remotion TypeScript code"
    agent := 1
    context := ["structure"] }

/-- Task 3 (`caption_task`): `context=[code_task]`, agent 2 (Caption
Animator); being the last task, its output is exposed as the result key
"final_code" (the `kickoff` return value). -/
def caption_task : Step :=
  { id := "final_code"
    description := captionTaskDescription
    expected_output := "Caption component integrated with video"
    agent := 2
    context := ["remotion_code"] }

/-- The task list `[structure_task, code_task, caption_task]` passed to the
crew (video_crew.py line 343). -/
def videoSteps (script platform : String) : List Step :=
  [structure_task script platform, code_task, caption_task]

/-- `VideoCrew.run_full_video_pipeline` (video_crew.py lines 293-356):
resolves the platform spec with the default fallback, builds the three tasks,
runs them sequentially via `crew.kickoff()`, and returns the dictionary
literal of lines 350-356 with keys "structure", "remotion_code", "final_code",
"platform", "specs".  The Python default `platform="tiktok"` is kept.  An
executor error propagates (no dictionary is returned). -/
def run_full_video_pipeline {ε : Type}
    (exec : Step → RunContext → Except ε String) (script : String)
    (platform : String := "tiktok") : Except ε (List (String × PyVal)) :=
  let specs := platformSpecsGet platform
  match crewKickoff exec (videoSteps script platform) with
  | Except.error e => Except.error e
  | Except.ok (ctx, result) =>
    Except.ok
      [("structure", taskOutputVal ctx "structure"),
       ("remotion_code", taskOutputVal ctx "remotion_code"),
       ("final_code", PyVal.pyStr result),
       ("platform", PyVal.pyStr platform),
       ("specs", PyVal.pySpecDict specs)]

end VideoCrew

/-- The campaign brief of the spec's end-to-end scenario. -/
def briefX : StrDict :=
  [("product", "X"), ("audience", "Y"), ("platform", "tiktok"),
   ("emotional_trigger", "relief")]

/-- The mocked executor of the spec's end-to-end scenario: fixed strings "H",
"C", "O" for the hook, copy and optimization steps. -/
def mockExec : Step → RunContext → Except String String :=
  fun s _ =>
    if s.id = "hooks" then Except.ok "H"
    else if s.id = "copy" then Except.ok "C"
    else Except.ok "O"

/-- A second executor, written differently but returning the same output as
`mockExec` on every (step, context) pair. -/
def mockExec2 : Step → RunContext → Except String String :=
  fun s c => mockExec s c

/-- The result dictionary the content pipeline actually returns in the spec's
end-to-end scenario. -/
def contentResultX : List (String × PyVal) :=
  [("hooks", PyVal.pyStr "H"), ("copy", PyVal.pyStr "C"),
   ("optimized", PyVal.pyStr "O"), ("platform", PyVal.pyStr "tiktok"),
   ("brief", PyVal.pyStrDict briefX)]

/-- The result dictionary claimed by the spec's end-to-end scenario. -/
def claimedResultX : List (String × PyVal) :=
  [("hooks", PyVal.pyStr "H"), ("copy", PyVal.pyStr "C"),
   ("optimized", PyVal.pyStr "O"), ("final", PyVal.pyStr "O")]

/-- The result dictionary the video pipeline returns when the mocked executor
is run on script "S" and platform "tiktok" (every video step returns "O"). -/
def videoResultX : List (String × PyVal) :=
  [("structure", PyVal.pyStr "O"), ("remotion_code", PyVal.pyStr "O"),
   ("final_code", PyVal.pyStr "O"), ("platform", PyVal.pyStr "tiktok"),
   ("specs", PyVal.pySpecDict VideoCrew.platformSpecsTiktok)]

/-- An executor that fails on the second content step and succeeds elsewhere,
for the spec's failure scenario. -/
def failExecC : Step → RunContext → Except String String :=
  fun s _ => if s.id = "copy" then Except.error "boom" else Except.ok "H"

/-- An executor that fails on the second video step and succeeds elsewhere. -/
def failExecV : Step → RunContext → Except String String :=
  fun s _ =>
    if s.id = "remotion_code" then Except.error "vboom" else Except.ok "S"

theorem PLATFORM_SPECS_tiktok :
    alistGet VideoCrew.PLATFORM_SPECS "tiktok" = some VideoCrew.platformSpecsTiktok := by
  decide

theorem hook_task_id (brief : StrDict) : (ContentCrew.hook_task brief).id = "hooks" := rfl

theorem copy_task_id : ContentCrew.copy_task.id = "copy" := rfl

theorem optimize_task_id (brief : StrDict) : (ContentCrew.optimize_task brief).id = "optimized" := rfl

theorem structure_task_id (script platform : String) : (VideoCrew.structure_task script platform).id = "structure" := rfl

theorem code_task_id : VideoCrew.code_task.id = "remotion_code" := rfl

theorem caption_task_id : VideoCrew.caption_task.id = "final_code" := rfl

theorem runStepsT_trace_prefix {ε : Type}
    (exec : Step → RunContext → Except ε String) :
    ∀ (steps : List Step) (ctx : RunContext),
      ((runStepsT exec steps ctx).1.map Prod.fst) <+: steps := by
  intro steps
  induction steps with
  | nil => intro ctx; simp [runStepsT]
  | cons s rest ih =>
    intro ctx
    cases h : exec s ctx with
    | error e =>
      simp only [runStepsT, h, List.map_cons, List.map_nil]
      exact ⟨rest, rfl⟩
    | ok out =>
      simp only [runStepsT, h, List.map_cons]
      obtain ⟨t, ht⟩ := ih (ctx ++ [(s.id, out)])
      exact ⟨t, by simp [ht]⟩

theorem runStepsT_deps {ε : Type}
    (exec : Step → RunContext → Except ε String) :
    ∀ (steps : List Step) (ctx : RunContext), depsOk (ctx.map Prod.fst) steps →
      ∀ p ∈ (runStepsT exec steps ctx).1, ∀ d ∈ p.1.context,
        d ∈ p.2.map Prod.fst := by
  intro steps
  induction steps with
  | nil => intro ctx _ p hp; simp [runStepsT] at hp
  | cons s rest ih =>
    intro ctx hdeps p hp d hd
    obtain ⟨h1, h2⟩ := hdeps
    cases h : exec s ctx with
    | error e =>
      simp only [runStepsT, h, List.mem_singleton] at hp
      subst hp
      exact h1 d hd
    | ok out =>
      simp only [runStepsT, h, List.mem_cons] at hp
      rcases hp with hp | hp
      · subst hp
        exact h1 d hd
      · have h2' : depsOk ((ctx ++ [(s.id, out)]).map Prod.fst) rest := by
          simpa using h2
        exact ih (ctx ++ [(s.id, out)]) h2' p hp d hd

theorem runSteps_ok_keys {ε : Type}
    (exec : Step → RunContext → Except ε String) :
    ∀ (steps : List Step) (ctx0 ctx : RunContext),
      runSteps exec steps ctx0 = Except.ok ctx →
      ctx.map Prod.fst = ctx0.map Prod.fst ++ steps.map Step.id := by
  intro steps
  induction steps with
  | nil =>
    intro ctx0 ctx h
    simp only [runSteps, runStepsT, Except.ok.injEq] at h
    subst h; simp
  | cons s rest ih =>
    intro ctx0 ctx h
    cases h1 : exec s ctx0 with
    | error e => simp [runSteps, runStepsT, h1] at h
    | ok out =>
      simp only [runSteps, runStepsT, h1] at h
      have := ih (ctx0 ++ [(s.id, out)]) ctx h
      simpa using this

theorem runStepsT_congr {ε : Type}
    (e1 e2 : Step → RunContext → Except ε String)
    (hagree : ∀ s c, e1 s c = e2 s c) :
    ∀ (steps : List Step) (ctx : RunContext),
      runStepsT e1 steps ctx = runStepsT e2 steps ctx := by
  intro steps
  induction steps with
  | nil => intro ctx; rfl
  | cons s rest ih =>
    intro ctx
    simp only [runStepsT, hagree s ctx]
    cases e2 s ctx with
    | error e => rfl
    | ok out => simp [ih (ctx ++ [(s.id, out)])]

theorem content_run_ok {ε : Type}
    (exec : Step → RunContext → Except ε String) (brief : StrDict)
    (r : List (String × PyVal))
    (h : ContentCrew.run_full_content_pipeline exec brief = Except.ok r) :
    ∃ o1 o2 o3 : String,
      exec (ContentCrew.hook_task brief) [] = Except.ok o1 ∧
      exec ContentCrew.copy_task [("hooks", o1)] = Except.ok o2 ∧
      exec (ContentCrew.optimize_task brief) [("hooks", o1), ("copy", o2)] =
        Except.ok o3 ∧
      runSteps exec (ContentCrew.contentSteps brief) [] =
        Except.ok [("hooks", o1), ("copy", o2), ("optimized", o3)] ∧
      r = [("hooks", PyVal.pyStr o1), ("copy", PyVal.pyStr o2),
           ("optimized", PyVal.pyStr o3),
           ("platform", optStrVal (alistGet brief "platform")),
           ("brief", PyVal.pyStrDict brief)] := by
  cases h1 : exec (ContentCrew.hook_task brief) [] with
  | error e =>
    simp [ContentCrew.run_full_content_pipeline, crewKickoff, runSteps,
      runStepsT, ContentCrew.contentSteps, hook_task_id, copy_task_id, optimize_task_id, h1] at h
  | ok o1 =>
    cases h2 : exec ContentCrew.copy_task [("hooks", o1)] with
    | error e =>
      simp [ContentCrew.run_full_content_pipeline, crewKickoff, runSteps,
        runStepsT, ContentCrew.contentSteps, hook_task_id, copy_task_id, optimize_task_id, h1, h2] at h
    | ok o2 =>
      cases h3 : exec (ContentCrew.optimize_task brief)
          [("hooks", o1), ("copy", o2)] with
      | error e =>
        simp [ContentCrew.run_full_content_pipeline, crewKickoff, runSteps,
          runStepsT, ContentCrew.contentSteps, hook_task_id, copy_task_id, optimize_task_id, h1, h2, h3] at h
      | ok o3 =>
        refine ⟨o1, o2, o3, rfl, h2, h3, ?_, ?_⟩
        · simp [runSteps, runStepsT, ContentCrew.contentSteps, hook_task_id, copy_task_id, optimize_task_id, h1, h2, h3]
        · simp [ContentCrew.run_full_content_pipeline, crewKickoff, runSteps,
            runStepsT, ContentCrew.contentSteps, hook_task_id, copy_task_id, optimize_task_id, h1, h2, h3, lastOutput,
            taskOutputVal, alistGet] at h
          exact h.symm

theorem video_run_ok {ε : Type}
    (exec : Step → RunContext → Except ε String) (script platform : String)
    (r : List (String × PyVal))
    (h : VideoCrew.run_full_video_pipeline exec script platform = Except.ok r) :
    ∃ o1 o2 o3 : String,
      exec (VideoCrew.structure_task script platform) [] = Except.ok o1 ∧
      exec VideoCrew.code_task [("structure", o1)] = Except.ok o2 ∧
      exec VideoCrew.caption_task [("structure", o1), ("remotion_code", o2)] =
        Except.ok o3 ∧
      runSteps exec (VideoCrew.videoSteps script platform) [] =
        Except.ok [("structure", o1), ("remotion_code", o2), ("final_code", o3)] ∧
      r = [("structure", PyVal.pyStr o1), ("remotion_code", PyVal.pyStr o2),
           ("final_code", PyVal.pyStr o3),
           ("platform", PyVal.pyStr platform),
           ("specs", PyVal.pySpecDict (VideoCrew.platformSpecsGet platform))] := by
  cases h1 : exec (VideoCrew.structure_task script platform) [] with
  | error e =>
    simp [VideoCrew.run_full_video_pipeline, crewKickoff, runSteps,
      runStepsT, VideoCrew.videoSteps, structure_task_id, code_task_id, caption_task_id, h1] at h
  | ok o1 =>
    cases h2 : exec VideoCrew.code_task [("structure", o1)] with
    | error e =>
      simp [VideoCrew.run_full_video_pipeline, crewKickoff, runSteps,
        runStepsT, VideoCrew.videoSteps, structure_task_id, code_task_id, caption_task_id, h1, h2] at h
    | ok o2 =>
      cases h3 : exec VideoCrew.caption_task
          [("structure", o1), ("remotion_code", o2)] with
      | error e =>
        simp [VideoCrew.run_full_video_pipeline, crewKickoff, runSteps,
          runStepsT, VideoCrew.videoSteps, structure_task_id, code_task_id, caption_task_id, h1, h2, h3] at h
      | ok o3 =>
        refine ⟨o1, o2, o3, rfl, h2, h3, ?_, ?_⟩
        · simp [runSteps, runStepsT, VideoCrew.videoSteps, structure_task_id, code_task_id, caption_task_id, h1, h2, h3]
        · simp [VideoCrew.run_full_video_pipeline, crewKickoff, runSteps,
            runStepsT, VideoCrew.videoSteps, structure_task_id, code_task_id, caption_task_id, h1, h2, h3, lastOutput,
            taskOutputVal, alistGet] at h
          exact h.symm

theorem depsOk_content (brief : StrDict) :
    depsOk [] (ContentCrew.contentSteps brief) := by
  simp [depsOk, ContentCrew.contentSteps, ContentCrew.hook_task,
    ContentCrew.copy_task, ContentCrew.optimize_task]

theorem depsOk_video (script platform : String) :
    depsOk [] (VideoCrew.videoSteps script platform) := by
  simp [depsOk, VideoCrew.videoSteps, VideoCrew.structure_task,
    VideoCrew.code_task, VideoCrew.caption_task]

theorem runTrace_ids_prefix {ε : Type}
    (exec : Step → RunContext → Except ε String) (steps : List Step) :
    ((runTrace exec steps).map (fun p => p.1.id)) <+: steps.map Step.id := by
  obtain ⟨t, ht⟩ := runStepsT_trace_prefix exec steps []
  refine ⟨t.map Step.id, ?_⟩
  have h1 : (runTrace exec steps).map (fun p => p.1.id) =
      ((runTrace exec steps).map Prod.fst).map Step.id := by
    simp [List.map_map]
  rw [h1, ← List.map_append]
  exact congrArg (List.map Step.id) ht

/-- C9: each recognized platform identifier maps, in the static
`PLATFORM_SPECS` table, to the fixed width/height/fps spec with the stated
optional max duration (present for tiktok=180, instagram_reels=90,
youtube_shorts=60, instagram_feed=60; `None` for youtube); the table is a
single constant definition, so every lookup reads the same entries. -/
theorem claim_C9 :
    alistGet VideoCrew.PLATFORM_SPECS "tiktok" =
      some { width := 1080, height := 1920, fps := 30, max_duration := some 180 } ∧
    alistGet VideoCrew.PLATFORM_SPECS "instagram_reels" =
      some { width := 1080, height := 1920, fps := 30, max_duration := some 90 } ∧
    alistGet VideoCrew.PLATFORM_SPECS "youtube_shorts" =
      some { width := 1080, height := 1920, fps := 30, max_duration := some 60 } ∧
    alistGet VideoCrew.PLATFORM_SPECS "youtube" =
      some { width := 1920, height := 1080, fps := 30, max_duration := none } ∧
    alistGet VideoCrew.PLATFORM_SPECS "instagram_feed" =
      some { width := 1080, height := 1080, fps := 30, max_duration := some 60 } := by
  decide

/-- C10: when `generate_ad_copy` is called with `mental_models` omitted or
`None`, the effective mental-model list is exactly ["Loss Aversion", "Social
Proof"], and the task description it builds is exactly the one built for that
explicit two-model list; when a non-None list is supplied, exactly that list
is substituted into the instruction. -/
theorem claim_C10 (hook product platform : String) (l : List String) :
    ContentCrew.generate_ad_copy_mental_models none =
      ["Loss Aversion", "Social Proof"] ∧
    ContentCrew.generate_ad_copy_mental_models (some l) = l ∧
    ContentCrew.generate_ad_copy_description hook product platform none =
      ContentCrew.generate_ad_copy_description hook product platform
        (some ["Loss Aversion", "Social Proof"]) :=
  ⟨rfl, rfl, rfl⟩

/-- C4: a platform identifier absent from `PLATFORM_SPECS` is resolved, by
the spec lookup shared by `generate_video_structure`, `generate_remotion_code`
and `run_full_video_pipeline`, to the "tiktok" entry of the table (the
functions are total, so no error is raised). -/
theorem claim_C4 (platform : String)
    (h : alistGet VideoCrew.PLATFORM_SPECS platform = none) :
    VideoCrew.generate_video_structure_specs platform =
      VideoCrew.platformSpecsTiktok ∧
    VideoCrew.generate_remotion_code_specs platform =
      VideoCrew.platformSpecsTiktok ∧
    VideoCrew.platformSpecsGet platform = VideoCrew.platformSpecsTiktok ∧
    alistGet VideoCrew.PLATFORM_SPECS "tiktok" =
      some VideoCrew.platformSpecsTiktok ∧
    ∀ (exec : Step → RunContext → Except String String) (script : String)
      (rv : List (String × PyVal)),
      VideoCrew.run_full_video_pipeline exec script platform = Except.ok rv →
      alistGet rv "specs" = some (PyVal.pySpecDict VideoCrew.platformSpecsTiktok) := by
  have hg : VideoCrew.platformSpecsGet platform = VideoCrew.platformSpecsTiktok := by
    unfold VideoCrew.platformSpecsGet
    rw [h]
    rfl
  refine ⟨hg, hg, hg, by decide, ?_⟩
  intro exec script rv hrv
  obtain ⟨o1, o2, o3, _, _, _, _, hr⟩ := video_run_ok exec script platform rv hrv
  subst hr
  simp [alistGet, hg]

/-- Witness for C4 at the unknown platform "linkedin". -/
theorem claim_C4_witness :
    VideoCrew.generate_video_structure_specs "linkedin" =
      VideoCrew.platformSpecsTiktok :=
  (claim_C4 "linkedin" (by decide)).1

/-- C1 as amended: in the spec's end-to-end scenario (brief
{product: "X", audience: "Y", platform: "tiktok", emotional_trigger: "relief"},
executor returning "H", "C", "O" for the three steps),
`run_full_content_pipeline` returns the five-key dictionary
{hooks: "H", copy: "C", optimized: "O", platform: "tiktok", brief: <the brief>}
— the output of the last step appears under "optimized", there is no "final"
key, and the keys "platform" and "brief" are also present. -/
theorem claim_C1 :
    ContentCrew.run_full_content_pipeline mockExec briefX =
      Except.ok contentResultX := rfl

/-- Counterexample to C1 as stated: in that same scenario the pipeline does
not return the four-key dictionary {hooks: "H", copy: "C", optimized: "O",
final: "O"} the claim demands. -/
theorem claim_C1_counterexample :
    ContentCrew.run_full_content_pipeline mockExec briefX ≠
      Except.ok claimedResultX := by
  intro hcl
  have h2 : (Except.ok contentResultX : Except String _) =
      Except.ok claimedResultX :=
    (show ContentCrew.run_full_content_pipeline mockExec briefX =
        Except.ok contentResultX from rfl).symm.trans hcl
  have h3 : contentResultX = claimedResultX := by injection h2
  exact absurd h3 (by decide)

/-- Counterexample to C2 as stated: the content pipeline's successful run in
the end-to-end scenario returns a Pipeline Result with no "final" field at
all. -/
theorem claim_C2_counterexample :
    ContentCrew.run_full_content_pipeline mockExec briefX =
      Except.ok contentResultX ∧
    alistGet contentResultX "final" = none :=
  ⟨rfl, by decide⟩

/-- C2 as amended: the returned Pipeline Result has no field literally named
"final"; the designated final-output field is named "optimized" in the content
pipeline and "final_code" in the video pipeline, and for every successful run
that field equals the output recorded for the last step of the task sequence
(which is also the last output of the completed Run Context). -/
theorem claim_C2 {ε : Type} (execC execV : Step → RunContext → Except ε String)
    (brief : StrDict) (script platform : String)
    (rc rv : List (String × PyVal))
    (hc : ContentCrew.run_full_content_pipeline execC brief = Except.ok rc)
    (hv : VideoCrew.run_full_video_pipeline execV script platform = Except.ok rv) :
    ∃ ctxC ctxV : RunContext,
      runSteps execC (ContentCrew.contentSteps brief) [] = Except.ok ctxC ∧
      runSteps execV (VideoCrew.videoSteps script platform) [] = Except.ok ctxV ∧
      alistGet rc "final" = none ∧
      alistGet rc "optimized" = (alistGet ctxC "optimized").map PyVal.pyStr ∧
      alistGet ctxC "optimized" = some (lastOutput ctxC) ∧
      alistGet rv "final" = none ∧
      alistGet rv "final_code" = (alistGet ctxV "final_code").map PyVal.pyStr ∧
      alistGet ctxV "final_code" = some (lastOutput ctxV) := by
  obtain ⟨o1, o2, o3, _, _, _, hrun, hr⟩ := content_run_ok execC brief rc hc
  obtain ⟨p1, p2, p3, _, _, _, grun, gr⟩ := video_run_ok execV script platform rv hv
  subst hr; subst gr
  exact ⟨[("hooks", o1), ("copy", o2), ("optimized", o3)],
    [("structure", p1), ("remotion_code", p2), ("final_code", p3)],
    hrun, grun, rfl, rfl, rfl, rfl, rfl, rfl⟩

/-- Witness for C2 in the end-to-end scenario. -/
theorem claim_C2_witness :
    ∃ ctxC ctxV : RunContext,
      runSteps mockExec (ContentCrew.contentSteps briefX) [] = Except.ok ctxC ∧
      runSteps mockExec (VideoCrew.videoSteps "S" "tiktok") [] = Except.ok ctxV ∧
      alistGet contentResultX "final" = none ∧
      alistGet contentResultX "optimized" =
        (alistGet ctxC "optimized").map PyVal.pyStr ∧
      alistGet ctxC "optimized" = some (lastOutput ctxC) ∧
      alistGet videoResultX "final" = none ∧
      alistGet videoResultX "final_code" =
        (alistGet ctxV "final_code").map PyVal.pyStr ∧
      alistGet ctxV "final_code" = some (lastOutput ctxV) :=
  claim_C2 mockExec mockExec briefX "S" "tiktok" contentResultX videoResultX
    rfl rfl

/-- C3: in every run of either pipeline, each executor invocation on a step
that declares dependencies receives a Run Context in which every declared
dependency output is already recorded (for the content chain hooks → copy →
optimized just as for the video chain), and the invocation trace never
contains the same step id twice, so no step executes twice within one run. -/
theorem claim_C3 {ε : Type} (brief : StrDict) (script platform : String)
    (execC execV : Step → RunContext → Except ε String) :
    (∀ p ∈ runTrace execC (ContentCrew.contentSteps brief),
        ∀ d ∈ p.1.context, d ∈ p.2.map Prod.fst) ∧
    ((runTrace execC (ContentCrew.contentSteps brief)).map
        (fun p => p.1.id)).Nodup ∧
    (∀ p ∈ runTrace execV (VideoCrew.videoSteps script platform),
        ∀ d ∈ p.1.context, d ∈ p.2.map Prod.fst) ∧
    ((runTrace execV (VideoCrew.videoSteps script platform)).map
        (fun p => p.1.id)).Nodup := by
  refine ⟨?_, ?_, ?_, ?_⟩
  · exact runStepsT_deps execC (ContentCrew.contentSteps brief) []
      (depsOk_content brief)
  · have hpre := runTrace_ids_prefix execC (ContentCrew.contentSteps brief)
    have hnd : ((ContentCrew.contentSteps brief).map Step.id).Nodup := by
      show (["hooks", "copy", "optimized"] : List String).Nodup
      decide
    exact List.Nodup.sublist (List.IsPrefix.sublist hpre) hnd
  · exact runStepsT_deps execV (VideoCrew.videoSteps script platform) []
      (depsOk_video script platform)
  · have hpre := runTrace_ids_prefix execV (VideoCrew.videoSteps script platform)
    have hnd : ((VideoCrew.videoSteps script platform).map Step.id).Nodup := by
      show (["structure", "remotion_code", "final_code"] : List String).Nodup
      decide
    exact List.Nodup.sublist (List.IsPrefix.sublist hpre) hnd

set_option maxRecDepth 100000 in
/-- Witness for C3: in the end-to-end scenario, the executor invocation on the
copy step (which declares a dependency on "hooks") receives a Run Context that
already records the "hooks" output. -/
theorem claim_C3_witness :
    "hooks" ∈ ([("hooks", "H")] : RunContext).map Prod.fst :=
  (claim_C3 briefX "S" "tiktok" mockExec mockExec).1
    (ContentCrew.copy_task, [("hooks", "H")]) (by decide) "hooks" (by decide)

theorem runStepsT_ok_fst {ε : Type}
    (exec : Step → RunContext → Except ε String) :
    ∀ (steps : List Step) (ctx0 : RunContext) (tr : List (Step × RunContext))
      (ctx : RunContext),
      runStepsT exec steps ctx0 = (tr, Except.ok ctx) →
      tr.map Prod.fst = steps := by
  intro steps
  induction steps with
  | nil =>
    intro ctx0 tr ctx h
    simp only [runStepsT, Prod.mk.injEq] at h
    rw [← h.1]
    rfl
  | cons a rest ih =>
    intro ctx0 tr ctx h
    cases ha : exec a ctx0 with
    | error e => simp [runStepsT, ha, Prod.ext_iff] at h
    | ok o =>
      simp only [runStepsT, ha, Prod.mk.injEq] at h
      have hr : runStepsT exec rest (ctx0 ++ [(a.id, o)]) =
          ((runStepsT exec rest (ctx0 ++ [(a.id, o)])).1, Except.ok ctx) := by
        rw [← h.2]
      have h4 := ih (ctx0 ++ [(a.id, o)]) _ ctx hr
      rw [← h.1]
      simp [h4]

theorem runStepsT_error_mid {ε : Type}
    (exec : Step → RunContext → Except ε String) :
    ∀ (pre post : List Step) (ctx0 ctx1 : RunContext)
      (tr : List (Step × RunContext)) (s : Step) (e : ε),
      runStepsT exec pre ctx0 = (tr, Except.ok ctx1) →
      exec s ctx1 = Except.error e →
      runStepsT exec (pre ++ s :: post) ctx0 =
        (tr ++ [(s, ctx1)], Except.error e) := by
  intro pre
  induction pre with
  | nil =>
    intro post ctx0 ctx1 tr s e h hs
    simp only [runStepsT, Prod.mk.injEq, Except.ok.injEq] at h
    obtain ⟨h1, h2⟩ := h
    subst h1
    subst h2
    simp [runStepsT, hs]
  | cons a pre2 ih =>
    intro post ctx0 ctx1 tr s e h hs
    cases ha : exec a ctx0 with
    | error e2 => simp [runStepsT, ha, Prod.ext_iff] at h
    | ok o =>
      simp only [runStepsT, ha, Prod.mk.injEq] at h
      have hr : runStepsT exec pre2 (ctx0 ++ [(a.id, o)]) =
          ((runStepsT exec pre2 (ctx0 ++ [(a.id, o)])).1, Except.ok ctx1) := by
        rw [← h.2]
      have h4 := ih post (ctx0 ++ [(a.id, o)]) ctx1 _ s e hr hs
      rw [← h.1]
      simp [runStepsT, ha, h4]

/-- C5: whenever the executor raises an error on some step of either pipeline
(any decomposition of the task list into already-completed steps, the failing
step, and the remaining steps), the error propagates to the caller as-is: the
pipeline returns exactly that error and no (partial) result dictionary, and
the invocation trace consists of the completed steps followed by the failing
step only, so no later step is ever invoked and no output is recorded for
it. -/
theorem claim_C5 {ε : Type} (execC execV : Step → RunContext → Except ε String)
    (brief : StrDict) (script platform : String) (eC eV : ε)
    (preC postC : List Step) (sC : Step) (trC : List (Step × RunContext))
    (ctxC : RunContext)
    (preV postV : List Step) (sV : Step) (trV : List (Step × RunContext))
    (ctxV : RunContext)
    (hdecC : ContentCrew.contentSteps brief = preC ++ sC :: postC)
    (hpreC : runStepsT execC preC [] = (trC, Except.ok ctxC))
    (herrC : execC sC ctxC = Except.error eC)
    (hdecV : VideoCrew.videoSteps script platform = preV ++ sV :: postV)
    (hpreV : runStepsT execV preV [] = (trV, Except.ok ctxV))
    (herrV : execV sV ctxV = Except.error eV) :
    ContentCrew.run_full_content_pipeline execC brief = Except.error eC ∧
    runTrace execC (ContentCrew.contentSteps brief) = trC ++ [(sC, ctxC)] ∧
    (runTrace execC (ContentCrew.contentSteps brief)).map Prod.fst =
      preC ++ [sC] ∧
    VideoCrew.run_full_video_pipeline execV script platform = Except.error eV ∧
    runTrace execV (VideoCrew.videoSteps script platform) = trV ++ [(sV, ctxV)] ∧
    (runTrace execV (VideoCrew.videoSteps script platform)).map Prod.fst =
      preV ++ [sV] := by
  have hmidC := runStepsT_error_mid execC preC postC [] ctxC trC sC eC hpreC herrC
  have hmidV := runStepsT_error_mid execV preV postV [] ctxV trV sV eV hpreV herrV
  have hfstC := runStepsT_ok_fst execC preC [] trC ctxC hpreC
  have hfstV := runStepsT_ok_fst execV preV [] trV ctxV hpreV
  refine ⟨?_, ?_, ?_, ?_, ?_, ?_⟩
  · rw [ContentCrew.run_full_content_pipeline, crewKickoff, runSteps, hdecC,
      hmidC]
  · rw [runTrace, hdecC, hmidC]
  · rw [runTrace, hdecC, hmidC]
    simp [hfstC]
  · rw [VideoCrew.run_full_video_pipeline, hdecV]
    rw [crewKickoff, runSteps, hmidV]
  · rw [runTrace, hdecV, hmidV]
  · rw [runTrace, hdecV, hmidV]
    simp [hfstV]

/-- Witness for C5 with executors failing on the second step of each
pipeline. -/
theorem claim_C5_witness :
    ContentCrew.run_full_content_pipeline failExecC briefX =
      Except.error "boom" ∧
    runTrace failExecC (ContentCrew.contentSteps briefX) =
      [(ContentCrew.hook_task briefX, [])] ++
        [(ContentCrew.copy_task, [("hooks", "H")])] ∧
    (runTrace failExecC (ContentCrew.contentSteps briefX)).map Prod.fst =
      [ContentCrew.hook_task briefX] ++ [ContentCrew.copy_task] ∧
    VideoCrew.run_full_video_pipeline failExecV "S" "tiktok" =
      Except.error "vboom" ∧
    runTrace failExecV (VideoCrew.videoSteps "S" "tiktok") =
      [(VideoCrew.structure_task "S" "tiktok", [])] ++
        [(VideoCrew.code_task, [("structure", "S")])] ∧
    (runTrace failExecV (VideoCrew.videoSteps "S" "tiktok")).map Prod.fst =
      [VideoCrew.structure_task "S" "tiktok"] ++ [VideoCrew.code_task] :=
  claim_C5 failExecC failExecV briefX "S" "tiktok" "boom" "vboom"
    [ContentCrew.hook_task briefX] [ContentCrew.optimize_task briefX]
    ContentCrew.copy_task [(ContentCrew.hook_task briefX, [])] [("hooks", "H")]
    [VideoCrew.structure_task "S" "tiktok"] [VideoCrew.caption_task]
    VideoCrew.code_task [(VideoCrew.structure_task "S" "tiktok", [])]
    [("structure", "S")]
    rfl rfl rfl rfl rfl rfl

/-- C6: a successful run records exactly one output per step — the completed
Run Context's keys are exactly the step ids in sequence order — and the step
ids of the content and video pipelines are respectively
hooks/copy/optimized and structure/remotion_code/final_code, the keys under
which the result dictionaries expose the per-step outputs. -/
theorem claim_C6 {ε : Type} (exec : Step → RunContext → Except ε String)
    (steps : List Step) (ctx : RunContext) (brief : StrDict)
    (script platform : String)
    (h : runSteps exec steps [] = Except.ok ctx) :
    ctx.map Prod.fst = steps.map Step.id ∧
    (ContentCrew.contentSteps brief).map Step.id =
      ["hooks", "copy", "optimized"] ∧
    (VideoCrew.videoSteps script platform).map Step.id =
      ["structure", "remotion_code", "final_code"] := by
  refine ⟨?_, rfl, rfl⟩
  have h2 := runSteps_ok_keys exec steps [] ctx h
  simpa using h2

/-- Witness for C6 on the end-to-end content run. -/
theorem claim_C6_witness :
    ([("hooks", "H"), ("copy", "C"), ("optimized", "O")] : RunContext).map
        Prod.fst =
      (ContentCrew.contentSteps briefX).map Step.id ∧
    (ContentCrew.contentSteps briefX).map Step.id =
      ["hooks", "copy", "optimized"] ∧
    (VideoCrew.videoSteps "S" "tiktok").map Step.id =
      ["structure", "remotion_code", "final_code"] :=
  claim_C6 mockExec (ContentCrew.contentSteps briefX)
    [("hooks", "H"), ("copy", "C"), ("optimized", "O")] briefX "S" "tiktok" rfl

/-- C7: the pipeline runner is deterministic — two runs of either pipeline
with the same configuration and executors that return identical outputs on
every step invocation produce identical Pipeline Results. -/
theorem claim_C7 {ε : Type} (e1 e2 : Step → RunContext → Except ε String)
    (hagree : ∀ s c, e1 s c = e2 s c) (brief : StrDict)
    (script platform : String) :
    ContentCrew.run_full_content_pipeline e1 brief =
      ContentCrew.run_full_content_pipeline e2 brief ∧
    VideoCrew.run_full_video_pipeline e1 script platform =
      VideoCrew.run_full_video_pipeline e2 script platform := by
  have hC := runStepsT_congr e1 e2 hagree (ContentCrew.contentSteps brief) []
  have hV := runStepsT_congr e1 e2 hagree
    (VideoCrew.videoSteps script platform) []
  constructor
  · simp [ContentCrew.run_full_content_pipeline, crewKickoff, runSteps, hC]
  · simp [VideoCrew.run_full_video_pipeline, crewKickoff, runSteps, hV]

/-- Witness for C7 with two (pointwise equal) mocked executors. -/
theorem claim_C7_witness :
    ContentCrew.run_full_content_pipeline mockExec briefX =
      ContentCrew.run_full_content_pipeline mockExec2 briefX ∧
    VideoCrew.run_full_video_pipeline mockExec "S" "tiktok" =
      VideoCrew.run_full_video_pipeline mockExec2 "S" "tiktok" :=
  claim_C7 mockExec mockExec2 (fun _ _ => rfl) briefX "S" "tiktok"

/-- C8: every successful pipeline run echoes its input configuration
unmodified — the content result carries the constructor's campaign brief and
its platform value, the video result carries the platform argument and its
resolved spec entry; the embedding is purely functional, so the inputs are
never mutated. -/
theorem claim_C8 {ε : Type} (execC execV : Step → RunContext → Except ε String)
    (brief : StrDict) (script platform : String)
    (rc rv : List (String × PyVal))
    (hc : ContentCrew.run_full_content_pipeline execC brief = Except.ok rc)
    (hv : VideoCrew.run_full_video_pipeline execV script platform = Except.ok rv) :
    alistGet rc "brief" = some (PyVal.pyStrDict brief) ∧
    alistGet rc "platform" = some (optStrVal (alistGet brief "platform")) ∧
    alistGet rv "platform" = some (PyVal.pyStr platform) ∧
    alistGet rv "specs" =
      some (PyVal.pySpecDict (VideoCrew.platformSpecsGet platform)) := by
  obtain ⟨o1, o2, o3, _, _, _, _, hr⟩ := content_run_ok execC brief rc hc
  obtain ⟨p1, p2, p3, _, _, _, _, gr⟩ := video_run_ok execV script platform rv hv
  subst hr; subst gr
  exact ⟨rfl, rfl, rfl, rfl⟩

/-- Witness for C8 on the end-to-end scenario runs. -/
theorem claim_C8_witness :
    alistGet contentResultX "brief" = some (PyVal.pyStrDict briefX) ∧
    alistGet contentResultX "platform" =
      some (optStrVal (alistGet briefX "platform")) ∧
    alistGet videoResultX "platform" = some (PyVal.pyStr "tiktok") ∧
    alistGet videoResultX "specs" =
      some (PyVal.pySpecDict (VideoCrew.platformSpecsGet "tiktok")) :=
  claim_C8 mockExec mockExec briefX "S" "tiktok" contentResultX videoResultX
    rfl rfl
